import Mathlib

set_option allowUnsafeReducibility true
attribute [local semireducible] Rat.add Rat.mul Rat.inv Rat.sub Rat.ofScientific

/-!
# cursor-usage-monitor: verification of the credential / billing / usage pipeline

Shallow embedding of the credential-acquisition and usage-normalisation core of
the `CursorApiService` class (src/cursorApi.ts, newer revision) together with
the data model from src/types.ts.  Network I/O is modelled by passing the
response each endpoint would deliver as an explicit argument; the mutable
fields of the service object are modelled as an explicit state record.
JavaScript numbers that the claims touch are modelled exactly (naturals and
rationals); JS string operations are modelled on Lean strings.
-/

/-! ## JavaScript primitives -/

/-- JS truthiness of an optional string (`undefined`/`null`/`""` are falsy). -/
def jsTruthyStr : Option String → Bool
  | none => false
  | some s => s ≠ ""

/-- JS `a || b` on optional strings: `a` when truthy, else `b`. -/
def jsOrStr (a b : Option String) : Option String :=
  if jsTruthyStr a then a else b

/-- JS `a || d` where `a` is an optional string and `d` a string default. -/
def jsOrStrD (a : Option String) (d : String) : String :=
  match a with
  | some s => if s ≠ "" then s else d
  | none => d

/-- JS `a || d` where `a` is an optional number (0 and `undefined`/`null` falsy). -/
def jsOrNatD (a : Option Nat) (d : Nat) : Nat :=
  match a with
  | some n => if n ≠ 0 then n else d
  | none => d

/-- JS `n || d` on numbers (0 is falsy). -/
def jsOrNat (n d : Nat) : Nat :=
  if n ≠ 0 then n else d

/-- Hexadecimal digit value, as used by `decodeURIComponent`'s `%HH` escapes. -/
def hexVal (c : Char) : Option Nat :=
  if '0' ≤ c ∧ c ≤ '9' then some (c.toNat - 48)
  else if 'A' ≤ c ∧ c ≤ 'F' then some (c.toNat - 55)
  else if 'a' ≤ c ∧ c ≤ 'f' then some (c.toNat - 87)
  else none

/-! ## `decodeURIComponent`

The ECMAScript decoder walks the string; `%HH` escapes produce bytes, and any
run of escaped bytes must form valid (non-overlong, non-surrogate) UTF-8 —
otherwise a `URIError` is thrown, which `extractUserId` catches and then keeps
the raw string.  We model the decoder as a tokenizer (raw character / escaped
byte) followed by a strict UTF-8 decode of the byte runs. -/

/-- One unit of a percent-encoded string: a literal character or an escaped byte. -/
inductive PdTok where
  | raw (c : Char)
  | byte (b : Nat)

/-- Split a character list into percent-decoding tokens; `none` models the
`URIError` thrown on a malformed `%` escape. -/
def pdTokenize : List Char → Option (List PdTok)
  | [] => some []
  | '%' :: h1 :: h2 :: rest =>
    match hexVal h1, hexVal h2 with
    | some v1, some v2 => (pdTokenize rest).map (PdTok.byte (16 * v1 + v2) :: ·)
    | _, _ => none
  | '%' :: _ => none
  | c :: rest => (pdTokenize rest).map (PdTok.raw c :: ·)

/-- Is `b` a UTF-8 continuation byte (`10xxxxxx`)? -/
def isCont (b : Nat) : Bool := 0x80 ≤ b ∧ b ≤ 0xBF

/-- Strict UTF-8 decoding of the escaped-byte runs inside a token stream,
`none` on any invalid, overlong or surrogate-encoding sequence (the
`URIError` cases of `decodeURIComponent`). -/
def pdDecode (fuel : Nat) (ts : List PdTok) : Option (List Char) :=
  match fuel with
  | 0 => none
  | fuel + 1 =>
    match ts with
    | [] => some []
    | .raw c :: rest => (pdDecode fuel rest).map (c :: ·)
    | .byte b :: rest =>
      if b < 0x80 then
        (pdDecode fuel rest).map (Char.ofNat b :: ·)
      else if 0xC2 ≤ b ∧ b ≤ 0xDF then
        match rest with
        | .byte b2 :: rest2 =>
          if isCont b2 then
            (pdDecode fuel rest2).map (Char.ofNat ((b - 0xC0) * 64 + (b2 - 0x80)) :: ·)
          else none
        | _ => none
      else if 0xE0 ≤ b ∧ b ≤ 0xEF then
        match rest with
        | .byte b2 :: .byte b3 :: rest3 =>
          let lo2 : Nat := if b = 0xE0 then 0xA0 else 0x80
          let hi2 : Nat := if b = 0xED then 0x9F else 0xBF
          if (lo2 ≤ b2 ∧ b2 ≤ hi2) ∧ isCont b3 then
            (pdDecode fuel rest3).map
              (Char.ofNat ((b - 0xE0) * 4096 + (b2 - 0x80) * 64 + (b3 - 0x80)) :: ·)
          else none
        | _ => none
      else if 0xF0 ≤ b ∧ b ≤ 0xF4 then
        match rest with
        | .byte b2 :: .byte b3 :: .byte b4 :: rest4 =>
          let lo2 : Nat := if b = 0xF0 then 0x90 else 0x80
          let hi2 : Nat := if b = 0xF4 then 0x8F else 0xBF
          if (lo2 ≤ b2 ∧ b2 ≤ hi2) ∧ isCont b3 ∧ isCont b4 then
            (pdDecode fuel rest4).map
              (Char.ofNat ((b - 0xF0) * 262144 + (b2 - 0x80) * 4096 +
                (b3 - 0x80) * 64 + (b4 - 0x80)) :: ·)
          else none
        | _ => none
      else none

/-- Model of `decodeURIComponent`; `none` models a thrown `URIError`. -/
def percentDecode (s : String) : Option String :=
  match pdTokenize s.toList with
  | none => none
  | some ts => (pdDecode (ts.length + 1) ts).map String.mk

/-! ## Node `Buffer` base64 decoding and lenient UTF-8

`Buffer.from(x, 'base64')` is lenient: it stops at the first `=` and skips
characters outside the base64 alphabet; a trailing group of 2 or 3 sextets
yields 1 or 2 bytes, a single leftover sextet is dropped.
`buf.toString()` decodes UTF-8 leniently, emitting U+FFFD for invalid
sequences instead of throwing. -/

/-- Value of a standard-alphabet base64 character. -/
def b64Val (c : Char) : Option Nat :=
  if 'A' ≤ c ∧ c ≤ 'Z' then some (c.toNat - 65)
  else if 'a' ≤ c ∧ c ≤ 'z' then some (c.toNat - 71)
  else if '0' ≤ c ∧ c ≤ '9' then some (c.toNat + 4)
  else if c = '+' then some 62
  else if c = '/' then some 63
  else none

/-- Turn a list of 6-bit values into bytes, Node-style (partial trailing
groups contribute their complete bytes, a lone sextet is dropped). -/
def b64Group : List Nat → List Nat
  | a :: b :: c :: d :: rest =>
    (a * 4 + b / 16) :: ((b % 16) * 16 + c / 4) :: ((c % 4) * 64 + d) :: b64Group rest
  | [a, b, c] => [a * 4 + b / 16, (b % 16) * 16 + c / 4]
  | [a, b] => [a * 4 + b / 16]
  | _ => []

/-- Model of `Buffer.from(s, 'base64')`: bytes of the decoded string. -/
def nodeBase64Decode (s : String) : List Nat :=
  b64Group ((s.toList.takeWhile (· ≠ '=')).filterMap b64Val)

/-- The Unicode replacement character U+FFFD. -/
def replChar : Char := Char.ofNat 0xFFFD

/-- Lenient UTF-8 decoding as performed by `buf.toString()`: invalid bytes
become U+FFFD and decoding continues. -/
def utf8Lenient (fuel : Nat) (bs : List Nat) : List Char :=
  match fuel with
  | 0 => []
  | fuel + 1 =>
    match bs with
    | [] => []
    | b :: rest =>
      if b < 0x80 then Char.ofNat b :: utf8Lenient fuel rest
      else if 0xC2 ≤ b ∧ b ≤ 0xDF then
        match rest with
        | b2 :: rest2 =>
          if isCont b2 then
            Char.ofNat ((b - 0xC0) * 64 + (b2 - 0x80)) :: utf8Lenient fuel rest2
          else replChar :: utf8Lenient fuel rest
        | [] => [replChar]
      else if 0xE0 ≤ b ∧ b ≤ 0xEF then
        match rest with
        | b2 :: b3 :: rest3 =>
          let lo2 : Nat := if b = 0xE0 then 0xA0 else 0x80
          let hi2 : Nat := if b = 0xED then 0x9F else 0xBF
          if (lo2 ≤ b2 ∧ b2 ≤ hi2) ∧ isCont b3 then
            Char.ofNat ((b - 0xE0) * 4096 + (b2 - 0x80) * 64 + (b3 - 0x80)) ::
              utf8Lenient fuel rest3
          else replChar :: utf8Lenient fuel rest
        | _ => replChar :: utf8Lenient fuel rest
      else if 0xF0 ≤ b ∧ b ≤ 0xF4 then
        match rest with
        | b2 :: b3 :: b4 :: rest4 =>
          let lo2 : Nat := if b = 0xF0 then 0x90 else 0x80
          let hi2 : Nat := if b = 0xF4 then 0x8F else 0xBF
          if (lo2 ≤ b2 ∧ b2 ≤ hi2) ∧ isCont b3 ∧ isCont b4 then
            Char.ofNat ((b - 0xF0) * 262144 + (b2 - 0x80) * 4096 +
              (b3 - 0x80) * 64 + (b4 - 0x80)) :: utf8Lenient fuel rest4
          else replChar :: utf8Lenient fuel rest
        | _ => replChar :: utf8Lenient fuel rest
      else replChar :: utf8Lenient fuel rest

/-- Model of `Buffer.from(s, 'base64').toString()`. -/
def bufferBase64ToString (s : String) : String :=
  let bytes := nodeBase64Decode s
  String.mk (utf8Lenient (bytes.length + 1) bytes)

/-! ## JSON (`JSON.parse`) -/

/-- Parsed JSON values. -/
inductive Json where
  | null
  | bool (b : Bool)
  | num (q : ℚ)
  | str (s : String)
  | arr (elems : List Json)
  | obj (fields : List (String × Json))

/-- JSON whitespace. -/
def jsonWs (c : Char) : Bool := c = ' ' ∨ c = '\t' ∨ c = '\n' ∨ c = '\r'

/-- Numeric value of a list of decimal digits. -/
def digitsToNat (ds : List Char) : Nat :=
  ds.foldl (fun a c => a * 10 + (c.toNat - 48)) 0

/-- Split a leading run of decimal digits off a character list. -/
def takeDigits (cs : List Char) : List Char × List Char :=
  (cs.takeWhile Char.isDigit, cs.dropWhile Char.isDigit)

/-- Parse a JSON number (strict grammar: no leading zeros, mandatory digits
around the decimal point and in the exponent). -/
def parseJsonNum (cs : List Char) : Option (ℚ × List Char) :=
  let (sign, cs1) : ℚ × List Char :=
    match cs with
    | '-' :: r => (-1, r)
    | _ => (1, cs)
  let (ip, cs2) := takeDigits cs1
  if ip.isEmpty then none
  else if ip.length > 1 ∧ ip.headD '0' = '0' then none
  else
    let (fp, cs3) : List Char × List Char :=
      match cs2 with
      | '.' :: r => takeDigits r
      | _ => ([], cs2)
    if (match cs2 with | '.' :: _ => fp.isEmpty | _ => False) then none
    else
      let mant : ℚ := (digitsToNat ip : ℚ) + (digitsToNat fp : ℚ) / ((10 : ℚ) ^ fp.length)
      match cs3 with
      | e :: r =>
        if e = 'e' ∨ e = 'E' then
          let (es, r1) : Bool × List Char :=
            match r with
            | '-' :: rr => (true, rr)
            | '+' :: rr => (false, rr)
            | _ => (false, r)
          let (ed, r2) := takeDigits r1
          if ed.isEmpty then none
          else
            let k := digitsToNat ed
            let v := if es then sign * mant / ((10 : ℚ) ^ k) else sign * mant * ((10 : ℚ) ^ k)
            some (v, r2)
        else some (sign * mant, cs3)
      | [] => some (sign * mant, cs3)

/-- Parse the body of a JSON string (after the opening quote), handling the
escape sequences of the JSON grammar. -/
def parseJsonStr (fuel : Nat) (cs : List Char) : Option (List Char × List Char) :=
  match fuel with
  | 0 => none
  | fuel + 1 =>
    match cs with
    | [] => none
    | '"' :: rest => some ([], rest)
    | '\\' :: e :: rest =>
      match e with
      | '"' => (parseJsonStr fuel rest).map (fun p => ('"' :: p.1, p.2))
      | '\\' => (parseJsonStr fuel rest).map (fun p => ('\\' :: p.1, p.2))
      | '/' => (parseJsonStr fuel rest).map (fun p => ('/' :: p.1, p.2))
      | 'b' => (parseJsonStr fuel rest).map (fun p => (Char.ofNat 8 :: p.1, p.2))
      | 'f' => (parseJsonStr fuel rest).map (fun p => (Char.ofNat 12 :: p.1, p.2))
      | 'n' => (parseJsonStr fuel rest).map (fun p => ('\n' :: p.1, p.2))
      | 'r' => (parseJsonStr fuel rest).map (fun p => ('\r' :: p.1, p.2))
      | 't' => (parseJsonStr fuel rest).map (fun p => ('\t' :: p.1, p.2))
      | 'u' =>
        match rest with
        | h1 :: h2 :: h3 :: h4 :: rest4 =>
          match hexVal h1, hexVal h2, hexVal h3, hexVal h4 with
          | some v1, some v2, some v3, some v4 =>
            (parseJsonStr fuel rest4).map
              (fun p => (Char.ofNat (((v1 * 16 + v2) * 16 + v3) * 16 + v4) :: p.1, p.2))
          | _, _, _, _ => none
        | _ => none
      | _ => none
    | c :: rest =>
      if c.toNat < 0x20 then none
      else (parseJsonStr fuel rest).map (fun p => (c :: p.1, p.2))

/-- Does `pre` begin the list `cs`? (used for the `true`/`false`/`null` literals). -/
def charsPrefix (pre cs : List Char) : Option (List Char) :=
  match pre, cs with
  | [], rest => some rest
  | p :: ps, c :: rest => if p = c then charsPrefix ps rest else none
  | _ :: _, [] => none

mutual

/-- Parse one JSON value (leading whitespace allowed). -/
def parseJsonVal (fuel : Nat) (cs : List Char) : Option (Json × List Char) :=
  match fuel with
  | 0 => none
  | fuel + 1 =>
    match cs.dropWhile jsonWs with
    | [] => none
    | c :: rest =>
      if c = '"' then
        (parseJsonStr (rest.length + 1) rest).map (fun p => (.str (String.mk p.1), p.2))
      else if c = '[' then
        match (rest.dropWhile jsonWs) with
        | ']' :: r => some (.arr [], r)
        | _ => (parseJsonElems fuel rest).map (fun p => (.arr p.1, p.2))
      else if c = '\x7b' then
        match (rest.dropWhile jsonWs) with
        | '\x7d' :: r => some (.obj [], r)
        | _ => (parseJsonMembers fuel rest).map (fun p => (.obj p.1, p.2))
      else if c = 't' then (charsPrefix ['r', 'u', 'e'] rest).map ((Json.bool true, ·))
      else if c = 'f' then (charsPrefix ['a', 'l', 's', 'e'] rest).map ((Json.bool false, ·))
      else if c = 'n' then (charsPrefix ['u', 'l', 'l'] rest).map ((Json.null, ·))
      else (parseJsonNum (c :: rest)).map (fun p => (.num p.1, p.2))

/-- Parse the comma-separated elements of a (non-empty) JSON array, including
the closing bracket. -/
def parseJsonElems (fuel : Nat) (cs : List Char) : Option (List Json × List Char) :=
  match fuel with
  | 0 => none
  | fuel + 1 =>
    match parseJsonVal fuel cs with
    | none => none
    | some (v, rest) =>
      match rest.dropWhile jsonWs with
      | ',' :: r => (parseJsonElems fuel r).map (fun p => (v :: p.1, p.2))
      | ']' :: r => some ([v], r)
      | _ => none

/-- Parse the members of a (non-empty) JSON object, including the closing brace. -/
def parseJsonMembers (fuel : Nat) (cs : List Char) : Option (List (String × Json) × List Char) :=
  match fuel with
  | 0 => none
  | fuel + 1 =>
    match cs.dropWhile jsonWs with
    | '"' :: rest =>
      match parseJsonStr (rest.length + 1) rest with
      | none => none
      | some (key, rest1) =>
        match rest1.dropWhile jsonWs with
        | ':' :: rest2 =>
          match parseJsonVal fuel rest2 with
          | none => none
          | some (v, rest3) =>
            match rest3.dropWhile jsonWs with
            | ',' :: r => (parseJsonMembers fuel r).map (fun p => ((String.mk key, v) :: p.1, p.2))
            | '\x7d' :: r => some ([(String.mk key, v)], r)
            | _ => none
        | _ => none
    | _ => none

end

/-- Model of `JSON.parse`: `none` when the parser would throw. -/
def jsonParse (s : String) : Option Json :=
  match parseJsonVal (s.length + 1) s.toList with
  | some (v, rest) => if (rest.dropWhile jsonWs).isEmpty then some v else none
  | none => none

/-- Last-wins object field lookup, as JS property access sees a parsed object. -/
def jsonGetField (j : Json) (key : String) : Option Json :=
  match j with
  | .obj fields => ((fields.reverse).find? (fun f => f.1 == key)).map (·.2)
  | _ => none

/-! ## The regex `user_[A-Za-z0-9]+` -/

/-- ASCII letter or digit, the `[A-Za-z0-9]` character class. -/
def alnum (c : Char) : Bool :=
  ('A' ≤ c ∧ c ≤ 'Z') ∨ ('a' ≤ c ∧ c ≤ 'z') ∨ ('0' ≤ c ∧ c ≤ '9')

/-- A match of `user_[A-Za-z0-9]+` starting exactly at the head of `cs`. -/
def userRunAt (cs : List Char) : Option String :=
  match cs with
  | 'u' :: 's' :: 'e' :: 'r' :: '_' :: tail =>
    let run := tail.takeWhile alnum
    if run.isEmpty then none
    else some (String.mk ('u' :: 's' :: 'e' :: 'r' :: '_' :: run))
  | _ => none

/-- Leftmost match, scanning successive start positions like the JS regex engine. -/
def userMatchAux : List Char → Option String
  | [] => none
  | c :: rest =>
    match userRunAt (c :: rest) with
    | some s => some s
    | none => userMatchAux rest

/-- Model of `s.match(/user_[A-Za-z0-9]+/)`, returning `match[0]`. -/
def regexUserMatch (s : String) : Option String :=
  userMatchAux s.toList

/-! ## `extractUserId` (IdentityExtractor) -/

/-- Does `pat` occur starting at some position of the list? -/
def hasInfixAux (pat : List Char) : List Char → Bool
  | [] => (charsPrefix pat []).isSome
  | c :: rest => (charsPrefix pat (c :: rest)).isSome || hasInfixAux pat rest

/-- Is `pat` an infix of `s`? — JS `s.includes(pat)`. -/
def jsIncludes (s pat : String) : Bool :=
  hasInfixAux pat.toList s.toList

/-- Split on a (non-empty) separator, left to right and non-overlapping;
`acc` holds the current piece reversed. -/
def splitSepAux (sep : List Char) (fuel : Nat) (cs acc : List Char) : List (List Char) :=
  match fuel with
  | 0 => [acc.reverse]
  | fuel + 1 =>
    match charsPrefix sep cs with
    | some rest => acc.reverse :: splitSepAux sep fuel rest []
    | none =>
      match cs with
      | [] => [acc.reverse]
      | c :: rest => splitSepAux sep fuel rest (c :: acc)

/-- JS `s.split(sep)` for a non-empty separator string. -/
def jsSplit (s sep : String) : List String :=
  (splitSepAux sep.toList (s.toList.length + 1) s.toList []).map String.mk

/-- Translate one base64url character to base64 (`-`→`+`, `_`→`/`). -/
def b64urlChar (c : Char) : Char :=
  if c = '-' then '+' else if c = '_' then '/' else c

/-- Pad with `=` until the length is a multiple of 4 (the `while` loop in
`extractUserId`). -/
def padB64 (cs : List Char) : List Char :=
  cs ++ List.replicate ((4 - cs.length % 4) % 4) '='

/-- The `payload.sub` handling of `extractUserId`: property access on the
parsed payload, the truthiness guard `if (payload.sub)`, then
`payload.sub.match(...)`.  A truthy non-string `sub` makes `.match` throw a
`TypeError`, which the surrounding `catch` turns into `null`; all those routes
end in `none`. -/
def extractFromPayload (j : Json) : Option String :=
  match jsonGetField j "sub" with
  | some (.str s) => if s ≠ "" then regexUserMatch s else none
  | _ => none

/-- `extractUserId` (cursorApi.ts): derive the account id from a session
credential.  First the credential is percent-decoded (keeping the raw string
if `decodeURIComponent` throws); a `<id>::<jwt>` credential yields the part
before the first `::`; otherwise a three-segment dot-delimited token has its
middle segment base64url-decoded and JSON-parsed and the id is the match of
`user_[A-Za-z0-9]+` against the payload's `sub`; every failure yields `none`. -/
def extractUserId (token : String) : Option String :=
  let decodedToken := (percentDecode token).getD token
  if jsIncludes decodedToken "::" then
    some ((jsSplit decodedToken "::").headD "")
  else
    let parts := jsSplit decodedToken "."
    if parts.length = 3 then
      let base64 := String.mk (padB64 (((parts.get? 1).getD "").toList.map b64urlChar))
      match jsonParse (bufferBase64ToString base64) with
      | some payload => extractFromPayload payload
      | none => none
    else none

/-! ## The spec's description of the no-separator extraction (for claim C6) -/

/-- Formalisation of the spec's words (section 4.2 of the spec) for a credential
without a `::` separator: after the spec's percent-decoding step ("attempt
percent-decoding, use raw string if decoding fails"), "treat the string as a
three-segment dot-delimited signed token: base64url-decode the middle segment
(translating `-` to `+`, `_` to `/`, padding with `=` to a multiple of 4),
parse it as JSON, and extract an account id via regex `user_[A-Za-z0-9]+`
applied to its `sub` field.  Any parse failure at any step yields null."
`specSubId` is the last step, `specExtractNoSep` the whole pipeline. -/
def specSubId (payload : Json) : Option String :=
  match jsonGetField payload "sub" with
  | some (.str sub) => regexUserMatch sub
  | _ => none

/-- The spec's three-segment extraction pipeline, continued: split on `.`,
base64url-decode the middle segment, JSON-parse, and take the `sub` match. -/
def specExtractNoSep (raw : String) : Option String :=
  let decoded := (percentDecode raw).getD raw
  let segments := jsSplit decoded "."
  if segments.length = 3 then
    let b64 := String.mk (padB64 ((((segments.get? 1).getD "")).toList.map b64urlChar))
    match jsonParse (bufferBase64ToString b64) with
    | some payload => specSubId payload
    | none => none
  else none

/-! ## Billing model and classifier (src/types.ts, `detectBillingModel`) -/

/-- The closed set of billing models (`BillingModel` in types.ts). -/
inductive BillingModel where
  | free
  | pro
  | business
  | usageBased
deriving DecidableEq

/-- Static per-model quota limits. -/
structure BillingLimits where
  premium : Nat
  standard : Nat
deriving DecidableEq

/-- `BILLING_LIMITS` from src/types.ts. -/
def BILLING_LIMITS : BillingModel → BillingLimits
  | .free => { premium := 50, standard := 200 }
  | .pro => { premium := 500, standard := 999999 }
  | .business => { premium := 500, standard := 999999 }
  | .usageBased => { premium := 999999, standard := 999999 }

/-- The uniform result record every endpoint call produces
(`ApiResponse<T>` in types.ts). -/
structure ApiResponse (α : Type) where
  success : Bool
  data : Option α := none
  error : Option String := none

/-- The fields of the `/auth/stripe` profile payload that `detectBillingModel`
reads (`StripeBillingInfo` in types.ts; the payment/trial fields that the
classifier never touches are not modelled).  `membershipType` and
`individualMembershipType` are declared as `string` but the code guards them
with `||`, so absent values are representable. -/
structure StripeBillingInfo where
  membershipType : Option String := none
  isOnBillableAuto : Bool := false
  isTeamMember : Bool := false
  teamMembershipType : Option String := none
  individualMembershipType : Option String := none
deriving DecidableEq

/-- The decision logic inside `detectBillingModel` applied to one profile
payload: the team branch is entered only when `isTeamMember` AND
`teamMembershipType` are both truthy; otherwise the individual
`membershipType || individualMembershipType` is classified. -/
def classifyBilling (info : StripeBillingInfo) : BillingModel :=
  if info.isTeamMember ∧ jsTruthyStr info.teamMembershipType then
    if info.teamMembershipType = some "business" ∨ info.teamMembershipType = some "enterprise" then
      .business
    else if info.teamMembershipType = some "usage_based" ∨ info.isOnBillableAuto then
      .usageBased
    else .pro
  else
    let memberType := jsOrStr info.membershipType info.individualMembershipType
    if memberType = some "free" ∨ memberType = some "free_trial" then .free
    else if memberType = some "pro" ∨ memberType = some "hobby" then .pro
    else if memberType = some "business" ∨ memberType = some "enterprise" then .business
    else .free

/-- What one call of `detectBillingModel` produces: the returned model, the
cache field (`this.detectedBillingModel`) afterwards, and whether a profile
request was issued. -/
structure DetectOutcome where
  model : BillingModel
  cacheAfter : Option BillingModel
  requested : Bool
deriving DecidableEq

/-- `detectBillingModel` (cursorApi.ts): return the cached model if present;
otherwise issue the profile request — `resp` is what `fetchBillingInfo` would
deliver — and cache the classification on success, or return `free` without
caching on any failure. -/
def detectBillingModel (cache : Option BillingModel)
    (resp : ApiResponse StripeBillingInfo) : DetectOutcome :=
  match cache with
  | some m => { model := m, cacheAfter := some m, requested := false }
  | none =>
    match resp.success, resp.data with
    | true, some info =>
      let m := classifyBilling info
      { model := m, cacheAfter := some m, requested := true }
    | _, _ => { model := .free, cacheAfter := none, requested := true }

/-! ## Quota usage (`transformUsageData`, `fetchUsageData`) -/

/-- Per-model-class request counts in the `/usage` response
(`CursorUsageResponse` in types.ts; `maxRequestUsage` is `number | null`). -/
structure ModelClassUsage where
  numRequests : Nat := 0
  maxRequestUsage : Option Nat := none
deriving DecidableEq

/-- The `/usage` response.  The code reads the three model-class keys with
optional chaining, so each may be absent.  The `startOfMonth` date string only
feeds the period fields, which no claim touches, and is not modelled. -/
structure CursorUsageResponse where
  gpt4 : Option ModelClassUsage := none
  gpt35turbo : Option ModelClassUsage := none
  gpt432k : Option ModelClassUsage := none
deriving DecidableEq

/-- `UsageData` from types.ts (the period date fields, which no claim
touches, are not modelled). -/
structure UsageData where
  requestsUsed : Nat
  requestsLimit : Nat
  premiumRequestsUsed : Nat
  premiumRequestsLimit : Nat
  billingModel : BillingModel
  usageBasedCostCents : Option Nat := none
  teamName : Option String := none
  isPremiumExhausted : Bool
deriving DecidableEq

/-- `transformUsageData` (cursorApi.ts): gpt-4 counts are "premium", the
per-account maximum (when truthy) overrides the static premium limit, and
premium is exhausted when `premiumUsed >= premiumLimit`. -/
def transformUsageData (response : CursorUsageResponse) (billingModel : BillingModel) :
    UsageData :=
  let limits := BILLING_LIMITS billingModel
  let premiumUsed := (response.gpt4.map (·.numRequests)).getD 0
  let premiumLimit := jsOrNatD (response.gpt4.bind (·.maxRequestUsage)) limits.premium
  let standardUsed := (response.gpt35turbo.map (·.numRequests)).getD 0
  let totalUsed := premiumUsed + standardUsed + (response.gpt432k.map (·.numRequests)).getD 0
  { requestsUsed := totalUsed
    requestsLimit := limits.standard
    premiumRequestsUsed := premiumUsed
    premiumRequestsLimit := premiumLimit
    billingModel := billingModel
    isPremiumExhausted := decide (premiumUsed ≥ premiumLimit) }

/-- The team-spend decoration `fetchUsageData` applies when premium is
exhausted and the `fetchTeamSpend` chain returned data. -/
def applyTeamSpend (u : UsageData) (teamSpend : Option (Nat × String)) : UsageData :=
  match teamSpend with
  | some ts => { u with usageBasedCostCents := some ts.1, teamName := some ts.2 }
  | none => u

/-- `fetchUsageData` (cursorApi.ts).  `authed` is the `sessionToken`/`userId`
guard; `quotaResp` is what the `/usage` endpoint call would deliver;
`teamSpend` is the collapsed outcome of the `fetchTeamSpend` chain
(`/dashboard/teams` + `/dashboard/get-team-spend`), which only decorates the
result when premium is exhausted. -/
def fetchUsageData (authed : Bool) (quotaResp : ApiResponse CursorUsageResponse)
    (teamSpend : Option (Nat × String)) (billingModel : BillingModel) :
    ApiResponse UsageData :=
  if authed = false then
    { success := false, error := some "Not authenticated. Please set your Cursor session token." }
  else
    match quotaResp.success, quotaResp.data with
    | true, some resp =>
      let usageData := transformUsageData resp billingModel
      let usageData :=
        if usageData.isPremiumExhausted then applyTeamSpend usageData teamSpend else usageData
      { success := true, data := some usageData }
    | _, _ =>
      { success := false, error := some (jsOrStrD quotaResp.error "Failed to fetch usage data") }

/-! ## Usage events (`parseCost`, `transformUsageEvents`, `fetchUsageEvents`) -/

/-- Model of JS `parseFloat` on the exact rationals: leading whitespace, an
optional sign, a decimal mantissa and an optional exponent; the longest valid
prefix is taken and `none` models `NaN` (no parsable number at the start). -/
def jsParseFloat (s : String) : Option ℚ :=
  let cs := s.toList.dropWhile (fun c => c = ' ' ∨ c = '\t' ∨ c = '\n' ∨ c = '\r')
  let (sign, cs1) : ℚ × List Char :=
    match cs with
    | '-' :: r => (-1, r)
    | '+' :: r => (1, r)
    | _ => (1, cs)
  let (ip, cs2) := takeDigits cs1
  let (fp, cs3) : List Char × List Char :=
    match cs2 with
    | '.' :: r => takeDigits r
    | _ => ([], cs2)
  if ip.isEmpty ∧ fp.isEmpty then none
  else
    let mant : ℚ := (digitsToNat ip : ℚ) + (digitsToNat fp : ℚ) / ((10 : ℚ) ^ fp.length)
    match cs3 with
    | e :: r =>
      if e = 'e' ∨ e = 'E' then
        let (es, r1) : Bool × List Char :=
          match r with
          | '-' :: rr => (true, rr)
          | '+' :: rr => (false, rr)
          | _ => (false, r)
        let (ed, _) := takeDigits r1
        if ed.isEmpty then some (sign * mant)
        else if es then some (sign * mant / ((10 : ℚ) ^ digitsToNat ed))
        else some (sign * mant * ((10 : ℚ) ^ digitsToNat ed))
      else some (sign * mant)
    | [] => some (sign * mant)

/-- Two-digit zero-padded decimal. -/
def pad2 (n : Nat) : String :=
  if n < 10 then "0" ++ toString n else toString n

/-- `q.toFixed(2)` for a non-negative rational: round half up at two decimals. -/
def toFixed2abs (q : ℚ) : String :=
  let n : Nat := (Rat.floor (q * 100 + 1 / 2)).toNat
  toString (n / 100) ++ "." ++ pad2 (n % 100)

/-- Model of JS `Number.prototype.toFixed(2)` on the exact rationals. -/
def toFixed2 (q : ℚ) : String :=
  if q < 0 then "-" ++ toFixed2abs (-q) else toFixed2abs q

/-- The value found in an event's `usageBasedCosts` field, which the API may
deliver as a pre-formatted string, a raw number, some other object, or not at
all (`string | number | object | undefined` in types.ts). -/
inductive CostValue where
  | undef
  | str (s : String)
  | num (q : ℚ)
  | obj
deriving DecidableEq

/-- `parseCost` (cursorApi.ts): falsy input gives 0 / `$0.00`; a string is
stripped of `$` and `,` and `parseFloat`-ed (NaN mapped to 0) keeping the
original as display; a number is kept with a `$x.xx` display; anything else
gives 0 / `$0.00`. -/
def parseCost (usageBasedCosts : CostValue) : ℚ × String :=
  match usageBasedCosts with
  | .undef => (0, "$0.00")
  | .str s =>
    if s = "" then (0, "$0.00")
    else
      let cleanCost := String.mk (s.toList.filter (fun c => ¬(c = '$' ∨ c = ',')))
      match jsParseFloat cleanCost with
      | none => (0, s)
      | some q => (q, s)
  | .num q =>
    if q = 0 then (0, "$0.00")
    else (q, "$" ++ toFixed2 q)
  | .obj => (0, "$0.00")

/-- The optional per-event token breakdown in the events payload. -/
structure TokenUsage where
  cacheWriteTokens : Option Nat := none
  cacheReadTokens : Option Nat := none
  inputTokens : Option Nat := none
  outputTokens : Option Nat := none
deriving DecidableEq

/-- One raw entry of `usageEventsDisplay`.  The `timestamp` arrives as a
decimal string that the code only ever feeds through `parseInt`; it is
modelled by its numeric value. -/
structure RawUsageEvent where
  timestamp : Nat := 0
  model : Option String := none
  kind : Option String := none
  usageBasedCosts : CostValue := .undef
  tokenUsage : Option TokenUsage := none
deriving DecidableEq

/-- `/dashboard/get-filtered-usage-events` response body
(`UsageEventsResponse` in types.ts): the `usageEventsDisplay` key may be
absent entirely. -/
structure UsageEventsResponse where
  usageEventsDisplay : Option (List RawUsageEvent) := none
deriving DecidableEq

/-- A normalised usage event (`UsageEvent` in types.ts; the locale-formatted
`date`/`time` strings, which no claim touches, are not modelled). -/
structure UsageEvent where
  timestamp : Nat
  model : String
  tokens : Nat
  cost : ℚ
  costDisplay : String
  kind : String
deriving DecidableEq

/-- `transformUsageEvents` (cursorApi.ts): sum the four optional token
counts, parse the cost, and default `model`/`kind` to `Unknown`. -/
def transformUsageEvents (response : UsageEventsResponse) : List UsageEvent :=
  match response.usageEventsDisplay with
  | none => []
  | some evs =>
    evs.map (fun event =>
      let costInfo := parseCost event.usageBasedCosts
      let tokens :=
        ((event.tokenUsage.bind (·.cacheWriteTokens)).getD 0) +
        ((event.tokenUsage.bind (·.cacheReadTokens)).getD 0) +
        ((event.tokenUsage.bind (·.inputTokens)).getD 0) +
        ((event.tokenUsage.bind (·.outputTokens)).getD 0)
      { timestamp := event.timestamp
        model := jsOrStrD event.model "Unknown"
        tokens := tokens
        cost := costInfo.1
        costDisplay := costInfo.2
        kind := jsOrStrD event.kind "Unknown" })

/-- `fetchUsageEvents` (cursorApi.ts): fail when unauthenticated or when the
endpoint call fails; an empty-object response (no `usageEventsDisplay` key) is
a success with zero events. -/
def fetchUsageEvents (authed : Bool) (resp : ApiResponse UsageEventsResponse) :
    ApiResponse (List UsageEvent) :=
  if authed = false then { success := false, error := some "Not authenticated" }
  else
    match resp.success, resp.data with
    | true, some d =>
      match d.usageEventsDisplay with
      | none => { success := true, data := some [] }
      | some _ => { success := true, data := some (transformUsageEvents d) }
    | _, _ =>
      { success := false, error := some (jsOrStrD resp.error "Failed to fetch usage events") }

/-! ## Combined usage (`fetchCombinedUsageData`) -/

/-- The `requestBased` variant payload of `CombinedUsageData`. -/
structure RequestBasedInfo where
  used : Nat
  limit : Nat
  percentage : Nat
deriving DecidableEq

/-- The `usageBased` variant payload of `CombinedUsageData`. -/
structure UsageBasedInfo where
  todayCost : ℚ
  todayTokens : Nat
  recentEvents : List UsageEvent
deriving DecidableEq

/-- `CombinedUsageData` from types.ts (the period date fields, which no claim
touches, are not modelled). -/
structure CombinedUsageData where
  billingType : String
  requestBased : Option RequestBasedInfo := none
  usageBased : Option UsageBasedInfo := none
deriving DecidableEq

/-- `Math.round(num / den)` for natural `num` and positive `den`: round half
up, computed exactly. -/
def natRatRound (num den : Nat) : Nat :=
  (2 * num + den) / (2 * den)

/-- Stable insertion for the descending-timestamp sort. -/
def insertByTsDesc (e : UsageEvent) : List UsageEvent → List UsageEvent
  | [] => [e]
  | x :: xs => if e.timestamp ≤ x.timestamp then x :: insertByTsDesc e xs else e :: x :: xs

/-- Model of `events.sort((a, b) => parseInt(b.timestamp) - parseInt(a.timestamp))`:
stable sort, newest first. -/
def sortByTsDesc : List UsageEvent → List UsageEvent
  | [] => []
  | e :: xs => insertByTsDesc e (sortByTsDesc xs)

/-- The mutable fields of the `CursorApiService` singleton that the claims
touch, together with the `cursorSessionToken` secret-storage slot. -/
structure SvcState where
  sessionToken : Option String := none
  userId : Option String := none
  detectedBillingModel : Option BillingModel := none
  secretSlot : Option String := none
deriving DecidableEq

/-- The responses the four upstream surfaces would deliver during one
`fetchCombinedUsageData` cycle. -/
structure ApiEnv where
  profileResp : ApiResponse StripeBillingInfo
  quotaResp : ApiResponse CursorUsageResponse
  teamSpend : Option (Nat × String) := none
  eventsResp : ApiResponse UsageEventsResponse

/-- What one `fetchCombinedUsageData` call produces, plus whether the
per-event usage fetch step (`fetchUsageEvents`) was executed. -/
structure CombinedFetchOutcome where
  result : ApiResponse CombinedUsageData
  eventsFetched : Bool

/-- The request-based fall-through at the end of `fetchCombinedUsageData`:
a successful quota response becomes a `requestBased` record with
`limit = premiumRequestsLimit || 50` and a rounded percentage, and a failed
one propagates its error. -/
def requestBasedTail (usageResponse : ApiResponse UsageData) : ApiResponse CombinedUsageData :=
  match usageResponse.success, usageResponse.data with
  | true, some data =>
    let limit := jsOrNat data.premiumRequestsLimit 50
    { success := true
      data := some
        { billingType := "request-based"
          requestBased := some
            { used := data.premiumRequestsUsed
              limit := limit
              percentage :=
                if limit > 0 then natRatRound (data.premiumRequestsUsed * 100) limit else 0 } } }
  | _, _ =>
    { success := false, error := some (jsOrStrD usageResponse.error "Failed to fetch usage data") }

/-- The zero-value usage-based record returned when the account is
usage-based but no events came back. -/
def zeroUsageBasedResult : ApiResponse CombinedUsageData :=
  { success := true
    data := some
      { billingType := "usage-based"
        usageBased := some { todayCost := 0, todayTokens := 0, recentEvents := [] } } }

/-- `fetchCombinedUsageData` (cursorApi.ts): resolve the billing model via
`detectBillingModel`, fetch the quota usage, fetch per-event usage when the
model is usage-based or premium is exhausted, and otherwise (or when the event
path yields nothing for a request-based account) fall through to the
request-based record. -/
def fetchCombinedUsageData (st : SvcState) (env : ApiEnv) (configBillingModel : BillingModel) :
    CombinedFetchOutcome :=
  if ¬(jsTruthyStr st.sessionToken ∧ jsTruthyStr st.userId) then
    { result := { success := false, error := some "Not authenticated" }, eventsFetched := false }
  else
    let billingModel := (detectBillingModel st.detectedBillingModel env.profileResp).model
    let usageResponse := fetchUsageData true env.quotaResp env.teamSpend billingModel
    let exhausted := (usageResponse.data.map (·.isPremiumExhausted)).getD false
    if billingModel = .usageBased ∨ (usageResponse.success = true ∧ exhausted = true) then
      let eventsResponse := fetchUsageEvents true env.eventsResp
      let events := eventsResponse.data.getD []
      if eventsResponse.success = true ∧ eventsResponse.data.isSome ∧ events.length > 0 then
        { result :=
            { success := true
              data := some
                { billingType := "usage-based"
                  usageBased := some
                    { todayCost := (events.map (·.cost)).sum
                      todayTokens := (events.map (·.tokens)).sum
                      recentEvents := sortByTsDesc events } } }
          eventsFetched := true }
      else if billingModel = .usageBased then
        { result := zeroUsageBasedResult, eventsFetched := true }
      else
        { result := requestBasedTail usageResponse, eventsFetched := true }
    else
      { result := requestBasedTail usageResponse, eventsFetched := false }

/-! ## Credential bootstrap (`setSessionToken`, `initialize`) -/

/-- `setSessionToken` (cursorApi.ts): the extracted user id is checked with
JS truthiness (`if (!userId)`), so a null *or empty-string* extraction
returns false and leaves the state untouched; otherwise the in-memory token
and user id are set and the token persisted to secret storage. -/
def setSessionToken (st : SvcState) (token : String) : Bool × SvcState :=
  let userId := extractUserId token
  if jsTruthyStr userId then
    (true, { st with sessionToken := some token, userId := userId, secretSlot := some token })
  else (false, st)

/-- What each local credential source would yield during `initialize`:
the secret-storage slot, the SQLite lookup (`readTokenFromSqlite`, both the
sql.js and the sqlite3-CLI route collapsed to the token it would find), and
the config-file scan (`getCursorConfigPaths` + `findTokenInObject`/regex,
collapsed likewise). -/
structure InitEnv where
  secretStored : Option String := none
  sqliteToken : Option String := none
  configToken : Option String := none

/-- Outcome of `initialize`: its boolean return, the service state
afterwards, and which local sources were consulted. -/
structure InitOutcome where
  ok : Bool
  state : SvcState
  dbConsulted : Bool
  configConsulted : Bool
deriving DecidableEq

/-- `autoDetectToken` (cursorApi.ts): the SQLite database is read first and a
truthy result short-circuits the config-file scan (`if (sqliteToken) return
sqliteToken` — an empty string is falsy and falls through). -/
def autoDetectToken (env : InitEnv) : Option String × Bool × Bool :=
  if jsTruthyStr env.sqliteToken then (env.sqliteToken, true, false)
  else (env.configToken, true, true)

/-- The auto-detect half of `initialize`: when enabled, run
`autoDetectToken`; a truthy found token (`if (autoDetectedToken)`) is loaded,
and kept — with the secret-storage write-back — only when the extracted user
id is truthy (`if (this.userId)`, so a null or empty-string id is rejected
and false is returned with no write-back). -/
def autoDetectPhase (st : SvcState) (env : InitEnv) (autoDetect : Bool) : InitOutcome :=
  if autoDetect then
    match autoDetectToken env with
    | (some tok, db, cfg) =>
      if tok ≠ "" then
        let st1 := { st with sessionToken := some tok, userId := extractUserId tok }
        if jsTruthyStr (extractUserId tok) then
          { ok := true, state := { st1 with secretSlot := some tok },
            dbConsulted := db, configConsulted := cfg }
        else
          { ok := false, state := st1, dbConsulted := db, configConsulted := cfg }
      else
        { ok := false, state := st, dbConsulted := db, configConsulted := cfg }
    | (none, db, cfg) =>
      { ok := false, state := st, dbConsulted := db, configConsulted := cfg }
  else
    { ok := false, state := st, dbConsulted := false, configConsulted := false }

/-- `initialize` (cursorApi.ts): a truthy token in secret storage
(`if (storedToken)`) is loaded first and, when the extracted user id is
truthy (`if (this.userId)` — null and the empty string are falsy), returned
without any auto-detection; otherwise auto-detection runs (when enabled). -/
def initializeSvc (st : SvcState) (env : InitEnv) (autoDetect : Bool) : InitOutcome :=
  match env.secretStored with
  | some storedToken =>
    if storedToken ≠ "" then
      let st1 := { st with sessionToken := some storedToken,
                           userId := extractUserId storedToken }
      if jsTruthyStr (extractUserId storedToken) then
        { ok := true, state := st1, dbConsulted := false, configConsulted := false }
      else
        autoDetectPhase st1 env autoDetect
    else autoDetectPhase st env autoDetect
  | none => autoDetectPhase st env autoDetect

/-! ## Helper lemmas -/

/-- The team-spend decoration does not touch the request-quota fields. -/
theorem applyTeamSpend_fields (u : UsageData) (ts : Option (Nat × String)) :
    (applyTeamSpend u ts).isPremiumExhausted = u.isPremiumExhausted ∧
    (applyTeamSpend u ts).premiumRequestsUsed = u.premiumRequestsUsed ∧
    (applyTeamSpend u ts).premiumRequestsLimit = u.premiumRequestsLimit := by
  cases ts <;> simp [applyTeamSpend]

/-- Payload of a successful quota fetch: the (possibly decorated)
transformed usage record. -/
theorem fetchUsageData_ok (q : ApiResponse CursorUsageResponse) (ts : Option (Nat × String))
    (bm : BillingModel) (resp : CursorUsageResponse)
    (hs : q.success = true) (hd : q.data = some resp) :
    fetchUsageData true q ts bm =
      { success := true
        data := some (if (transformUsageData resp bm).isPremiumExhausted
          then applyTeamSpend (transformUsageData resp bm) ts
          else transformUsageData resp bm) } := by
  simp [fetchUsageData, hs, hd]

/-- A failed quota fetch propagates the endpoint's error. -/
theorem fetchUsageData_fail (q : ApiResponse CursorUsageResponse) (ts : Option (Nat × String))
    (bm : BillingModel) (hq : q.success = false) :
    fetchUsageData true q ts bm =
      { success := false, error := some (jsOrStrD q.error "Failed to fetch usage data") } := by
  cases hd : q.data <;> simp [fetchUsageData, hq, hd]

/-- The decorated usage record agrees with the undecorated one on the three
request-quota fields. -/
theorem decoratedUsage_fields (u : UsageData) (ts : Option (Nat × String)) :
    (if u.isPremiumExhausted then applyTeamSpend u ts else u).isPremiumExhausted =
      u.isPremiumExhausted ∧
    (if u.isPremiumExhausted then applyTeamSpend u ts else u).premiumRequestsUsed =
      u.premiumRequestsUsed ∧
    (if u.isPremiumExhausted then applyTeamSpend u ts else u).premiumRequestsLimit =
      u.premiumRequestsLimit := by
  cases h : u.isPremiumExhausted <;> cases ts <;> simp [applyTeamSpend, h]

/-- With an empty cache, `detectBillingModel` always issues a profile request. -/
theorem detect_none_requested (r : ApiResponse StripeBillingInfo) :
    (detectBillingModel none r).requested = true := by
  cases hs : r.success <;> cases hd : r.data <;> simp [detectBillingModel, hs, hd]

/-- Every billing model has a non-zero static premium limit. -/
theorem premium_limit_ne_zero (m : BillingModel) : (BILLING_LIMITS m).premium ≠ 0 := by
  cases m <;> decide

/-! ## Claim C3: team member with other membership type -/

/-- A team-member profile with a null `teamMembershipType` (and no billable
auto flag). -/
def infoTeamNullType : StripeBillingInfo := { isTeamMember := true }

/-- A team-member profile whose `teamMembershipType` is present but matches
none of the higher-priority rows. -/
def infoTeamOtherType : StripeBillingInfo :=
  { isTeamMember := true, teamMembershipType := some "standard" }

/-- **C3, counterexample**: for a team member whose `teamMembershipType` is
null (absent) and whose other fields are falsy, `detectBillingModel`
classifies the account as `free`, not `pro`: the code's team branch requires
a truthy `teamMembershipType`, so the account falls through to the
individual-membership rules. -/
theorem detect_team_member_null_type_cex :
    infoTeamNullType.isTeamMember = true ∧
    infoTeamNullType.teamMembershipType = none ∧
    infoTeamNullType.isOnBillableAuto = false ∧
    (detectBillingModel none { success := true, data := some infoTeamNullType }).model =
      BillingModel.free := by
  decide

/-- **C3 (amended)**: for every profile payload with `isTeamMember` true and a
present (truthy) `teamMembershipType` that is not `business`, `enterprise` or
`usage_based`, and `isOnBillableAuto` false, `detectBillingModel` classifies
the account as `pro`.  (A null or absent `teamMembershipType` instead falls
through to the individual-membership rules.) -/
theorem detect_team_member_other_type_pro (info : StripeBillingInfo)
    (ht : info.isTeamMember = true)
    (htt : jsTruthyStr info.teamMembershipType = true)
    (hb : info.teamMembershipType ≠ some "business")
    (he : info.teamMembershipType ≠ some "enterprise")
    (hu : info.teamMembershipType ≠ some "usage_based")
    (ha : info.isOnBillableAuto = false) :
    (detectBillingModel none { success := true, data := some info }).model =
      BillingModel.pro := by
  simp [detectBillingModel, classifyBilling, ht, htt, hb, he, hu, ha]

/-- **C3, witness**: the amended theorem applied to a concrete team member
with `teamMembershipType = "standard"`. -/
theorem detect_team_member_other_type_pro_witness :
    (detectBillingModel none { success := true, data := some infoTeamOtherType }).model =
      BillingModel.pro :=
  detect_team_member_other_type_pro infoTeamOtherType (by decide) (by decide)
    (by decide) (by decide) (by decide) (by decide)

/-! ## Claim C5: detection is cached; failures are not -/

/-- **C5**: with an empty cache, a successful profile fetch caches its
classification, so a second call (with any second response) returns the same
model without issuing another profile request; a failed profile fetch returns
`free` without caching, so the next call issues a profile request again. -/
theorem detect_caches_success_not_failure :
    (∀ (r1 r2 : ApiResponse StripeBillingInfo) (info : StripeBillingInfo),
      r1.success = true → r1.data = some info →
      (detectBillingModel none r1).requested = true ∧
      (detectBillingModel none r1).cacheAfter = some (detectBillingModel none r1).model ∧
      detectBillingModel (detectBillingModel none r1).cacheAfter r2 =
        { model := (detectBillingModel none r1).model
          cacheAfter := (detectBillingModel none r1).cacheAfter
          requested := false }) ∧
    (∀ (r r2 : ApiResponse StripeBillingInfo),
      r.success = false ∨ r.data = none →
      detectBillingModel none r = { model := .free, cacheAfter := none, requested := true } ∧
      (detectBillingModel (detectBillingModel none r).cacheAfter r2).requested = true) := by
  constructor
  · intro r1 r2 info hs hd
    simp [detectBillingModel, hs, hd]
  · intro r r2 hfail
    have hred : detectBillingModel none r =
        { model := .free, cacheAfter := none, requested := true } := by
      rcases hfail with h | h
      · cases hd : r.data <;> simp [detectBillingModel, h, hd]
      · cases hs : r.success <;> simp [detectBillingModel, h, hs]
    exact ⟨hred, by rw [hred]; exact detect_none_requested r2⟩

/-- A profile response classifying as `pro`. -/
def profInfoPro : StripeBillingInfo := { membershipType := some "pro" }

/-- A successful profile response. -/
def profOk : ApiResponse StripeBillingInfo := { success := true, data := some profInfoPro }

/-- A failed profile response. -/
def profFail : ApiResponse StripeBillingInfo := { success := false }

/-- **C5, witness**: the caching law applied to a concrete successful
response followed by a failing one, and the no-caching law applied to the
failing response. -/
theorem detect_caches_success_not_failure_witness :
    (detectBillingModel (detectBillingModel none profOk).cacheAfter profFail =
      { model := (detectBillingModel none profOk).model
        cacheAfter := (detectBillingModel none profOk).cacheAfter
        requested := false }) ∧
    detectBillingModel none profFail =
      { model := .free, cacheAfter := none, requested := true } :=
  ⟨(detect_caches_success_not_failure.1 profOk profFail profInfoPro rfl rfl).2.2,
   (detect_caches_success_not_failure.2 profFail profFail (Or.inl rfl)).1⟩

/-! ## Claim C7: parseCost on its three input shapes -/

/-- **C7**: `parseCost` (a total Lean function over the `CostValue` shapes)
maps the string `"$1,234.50"` to numeric 1234.50 with the original display,
the number `42` to numeric 42 with display `"$42.00"`, and an absent value to
numeric 0 with display `"$0.00"`. -/
theorem parseCost_shapes :
    parseCost (.str "$1,234.50") = (1234.5, "$1,234.50") ∧
    parseCost (.num 42) = (42, "$42.00") ∧
    parseCost .undef = (0, "$0.00") := by
  refine ⟨by decide, by decide, by decide⟩

/-! ## Claim C9: a stored secret token and `initialize` -/

/-- An `initialize` environment whose secret storage holds a token from which
no user id can be extracted, while the SQLite database also has a token. -/
def envBadStored : InitEnv :=
  { secretStored := some "garbage", sqliteToken := some "user_B::jwt" }

/-- An `initialize` environment whose stored secret token extracts to the
*empty* user id (JS-falsy), while the SQLite database also has a token. -/
def envEmptyIdStored : InitEnv :=
  { secretStored := some "::jwt", sqliteToken := some "user_B::jwt" }

/-- **C9, counterexample**: when the stored secret token yields no truthy
user id — extraction fails (`"garbage"`) or yields the empty string
(`"::jwt"`) — `initialize` does *not* stop at the secure cache: with
auto-detect enabled it falls through and consults the SQLite database. -/
theorem initialize_secret_authoritative_cex :
    envBadStored.secretStored = some "garbage" ∧
    (initializeSvc {} envBadStored true).dbConsulted = true ∧
    envEmptyIdStored.secretStored = some "::jwt" ∧
    (initializeSvc {} envEmptyIdStored true).dbConsulted = true := by
  decide

/-- **C9 (amended)**: whenever the secure cache holds a stored token *from
which a non-empty user id can be extracted*, `initialize` returns true with
that token loaded and consults neither the SQLite database nor the config
files, regardless of the auto-detect setting.  (A stored token whose
extraction fails or yields the JS-falsy empty id instead falls through to
auto-detection.) -/
theorem initialize_secret_authoritative (st : SvcState) (env : InitEnv) (autoDetect : Bool)
    (t uid : String) (hsec : env.secretStored = some t)
    (hext : extractUserId t = some uid) (hne : uid ≠ "") :
    initializeSvc st env autoDetect =
      { ok := true
        state := { st with sessionToken := some t, userId := some uid }
        dbConsulted := false
        configConsulted := false } := by
  have h0 : extractUserId "" = none := by decide
  have ht : t ≠ "" := by
    intro h
    subst h
    exact Option.noConfusion (h0.symm.trans hext)
  have htr : jsTruthyStr (some uid) = true := by simp [jsTruthyStr, hne]
  simp [initializeSvc, hsec, ht, hext, htr]

/-- **C9, witness**: the amended theorem at a concrete environment whose
stored token is `"user_A::jwt"`. -/
theorem initialize_secret_authoritative_witness :
    initializeSvc {} { secretStored := some "user_A::jwt", sqliteToken := some "user_B::jwt" }
        true =
      { ok := true
        state :=
          { ({} : SvcState) with
            sessionToken := some "user_A::jwt"
            userId := some "user_A" }
        dbConsulted := false
        configConsulted := false } :=
  initialize_secret_authoritative {}
    { secretStored := some "user_A::jwt", sqliteToken := some "user_B::jwt" } true
    "user_A::jwt" "user_A" rfl (by decide) (by decide)

/-! ## Claim C10: `setSessionToken` is atomic on failure -/

/-- **C10**: `setSessionToken` leaves the in-memory session token, the
in-memory user id and the secret-storage slot unchanged and returns false
when no (truthy) user id can be extracted from the given token — extraction
failed outright or yielded the JS-falsy empty string; when extraction yields
a non-empty id it returns true and sets all three. -/
theorem setSessionToken_atomic (st : SvcState) (token : String) :
    (jsTruthyStr (extractUserId token) = false → setSessionToken st token = (false, st)) ∧
    (∀ uid, extractUserId token = some uid → uid ≠ "" →
      setSessionToken st token =
        (true, { st with sessionToken := some token, userId := some uid,
                         secretSlot := some token })) := by
  constructor
  · intro h; simp [setSessionToken, h]
  · intro uid h hne
    have htr : jsTruthyStr (some uid) = true := by simp [jsTruthyStr, hne]
    simp [setSessionToken, h, htr]

/-- **C10, witness**: both halves at concrete inputs — an invalid token and
the empty-id token `"::jwt"` each leave a concrete state untouched with a
false return, and a `<id>::<jwt>` token sets all three fields. -/
theorem setSessionToken_atomic_witness :
    setSessionToken {} "not-a-valid-token" = (false, ({} : SvcState)) ∧
    setSessionToken {} "::jwt" = (false, ({} : SvcState)) ∧
    setSessionToken {} "user_A::jwt" =
      (true,
        { ({} : SvcState) with
          sessionToken := some "user_A::jwt"
          userId := some "user_A"
          secretSlot := some "user_A::jwt" }) :=
  ⟨(setSessionToken_atomic {} "not-a-valid-token").1 (by decide),
   (setSessionToken_atomic {} "::jwt").1 (by decide),
   (setSessionToken_atomic {} "user_A::jwt").2 "user_A" (by decide) (by decide)⟩

/-! ## Claim C2: a failed quota call -/

/-- An authenticated state whose cached billing model is usage-based. -/
def stCachedUB : SvcState :=
  { sessionToken := some "user_U::jwt", userId := some "user_U",
    detectedBillingModel := some .usageBased }

/-- An environment where the quota endpoint fails and the events endpoint
returns an empty object. -/
def envQuotaFail : ApiEnv :=
  { profileResp := { success := false }
    quotaResp := { success := false, error := some "quota endpoint failed" }
    eventsResp := { success := true, data := some {} } }

/-- **C2, counterexample**: for a usage-based account the claim fails — the
quota endpoint call fails with an error, yet `fetchCombinedUsageData` returns
a *successful* zero-value usage-based record instead of a failure carrying
that error. -/
theorem combined_quota_failure_cex :
    envQuotaFail.quotaResp.success = false ∧
    envQuotaFail.quotaResp.error = some "quota endpoint failed" ∧
    (fetchCombinedUsageData stCachedUB envQuotaFail BillingModel.free).result.success = true ∧
    (fetchCombinedUsageData stCachedUB envQuotaFail BillingModel.free).result.error = none := by
  decide

/-- **C2 (amended)**: whenever the *effective billing model is not
usage-based* and the quota endpoint call fails with a (non-empty) error
message, `fetchCombinedUsageData` returns a failure carrying exactly that
message and no data.  (For a usage-based account the events path still runs
and the quota failure is not fatal.) -/
theorem combined_quota_failure_fatal (st : SvcState) (env : ApiEnv) (cfg : BillingModel)
    (e : String)
    (h1 : jsTruthyStr st.sessionToken = true) (h2 : jsTruthyStr st.userId = true)
    (hm : (detectBillingModel st.detectedBillingModel env.profileResp).model ≠
      BillingModel.usageBased)
    (hq : env.quotaResp.success = false)
    (he : env.quotaResp.error = some e) (hne : e ≠ "") :
    (fetchCombinedUsageData st env cfg).result =
      { success := false, data := none, error := some e } := by
  have hfail := fetchUsageData_fail env.quotaResp env.teamSpend
    (detectBillingModel st.detectedBillingModel env.profileResp).model hq
  simp only [fetchCombinedUsageData, hfail]
  simp [h1, h2, hm, requestBasedTail, jsOrStrD, he, hne]

/-- An authenticated state whose cached billing model is `pro`. -/
def stCachedPro : SvcState :=
  { sessionToken := some "user_P::jwt", userId := some "user_P",
    detectedBillingModel := some .pro }

/-- **C2, witness**: the amended theorem at a concrete pro account whose
quota endpoint fails with message `"quota endpoint failed"`. -/
theorem combined_quota_failure_fatal_witness :
    (fetchCombinedUsageData stCachedPro envQuotaFail BillingModel.free).result =
      { success := false, data := none, error := some "quota endpoint failed" } :=
  combined_quota_failure_fatal stCachedPro envQuotaFail BillingModel.free
    "quota endpoint failed" (by decide) (by decide) (by decide) rfl rfl (by decide)

/-! ## Claim C4: the request-based record -/

/-- A quota response with 10 premium requests and no per-account maximum. -/
def respProNoMax : CursorUsageResponse := { gpt4 := some { numRequests := 10 } }

/-- An environment delivering `respProNoMax` from the quota endpoint. -/
def envProNoMax : ApiEnv :=
  { profileResp := { success := false }
    quotaResp := { success := true, data := some respProNoMax }
    eventsResp := { success := true, data := some {} } }

/-- **C4, counterexample**: for a `pro` account whose quota response carries
no per-account maximum, the request-based record's limit is the model's
static premium limit 500, not 50 — the claimed default of 50 only matches the
`free` model. -/
theorem combined_requestBased_limit_cex :
    respProNoMax.gpt4.bind (·.maxRequestUsage) = none ∧
    ((fetchCombinedUsageData stCachedPro envProNoMax BillingModel.free).result.data.bind
        (·.requestBased)).map (·.limit) = some 500 := by
  decide

/-- **C4 (amended)**: for every successful quota response that does not
trigger the usage-based path, `fetchCombinedUsageData` returns a
request-based record whose `percentage` is `round(used / limit * 100)`
(computed here by `natRatRound`) and whose `limit`, when the endpoint
provided no per-account maximum, defaults to the detected billing model's
static premium limit `BILLING_LIMITS[model].premium` — which is 50 only for
the `free` model.  (The literal `|| 50` fallback in the code is unreachable
because every static premium limit is non-zero.) -/
theorem combined_requestBased_record (st : SvcState) (env : ApiEnv) (cfg : BillingModel)
    (resp : CursorUsageResponse) (g : ModelClassUsage) (m : BillingModel)
    (h1 : jsTruthyStr st.sessionToken = true) (h2 : jsTruthyStr st.userId = true)
    (hs : env.quotaResp.success = true) (hd : env.quotaResp.data = some resp)
    (hm : (detectBillingModel st.detectedBillingModel env.profileResp).model = m)
    (hmu : m ≠ BillingModel.usageBased)
    (hg : resp.gpt4 = some g) (hnm : g.maxRequestUsage = none)
    (hlt : g.numRequests < (BILLING_LIMITS m).premium) :
    (fetchCombinedUsageData st env cfg).result =
      { success := true
        data := some
          { billingType := "request-based"
            requestBased := some
              { used := g.numRequests
                limit := (BILLING_LIMITS m).premium
                percentage := natRatRound (g.numRequests * 100) ((BILLING_LIMITS m).premium) } } } := by
  have hu : transformUsageData resp m =
      { requestsUsed := g.numRequests + (resp.gpt35turbo.map (·.numRequests)).getD 0 +
          (resp.gpt432k.map (·.numRequests)).getD 0
        requestsLimit := (BILLING_LIMITS m).standard
        premiumRequestsUsed := g.numRequests
        premiumRequestsLimit := (BILLING_LIMITS m).premium
        billingModel := m
        isPremiumExhausted := false } := by
    simp [transformUsageData, hg, hnm, jsOrNatD, decide_eq_false_iff_not, Nat.not_le.mpr hlt]
  have hok := fetchUsageData_ok env.quotaResp env.teamSpend
    (detectBillingModel st.detectedBillingModel env.profileResp).model resp hs hd
  rw [hm] at hok
  simp only [fetchCombinedUsageData, hm, hok, hu]
  simp [h1, h2, hmu, requestBasedTail, jsOrNat, premium_limit_ne_zero m,
    Nat.pos_of_ne_zero (premium_limit_ne_zero m)]

/-- An authenticated state whose cached billing model is `free`. -/
def stCachedFree : SvcState :=
  { sessionToken := some "user_F::jwt", userId := some "user_F",
    detectedBillingModel := some .free }

/-- A quota response at 96% of the free premium quota (48 of 50), with no
per-account maximum. -/
def respFree96 : CursorUsageResponse := { gpt4 := some { numRequests := 48 } }

/-- An environment delivering `respFree96` from the quota endpoint. -/
def envFree96 : ApiEnv :=
  { profileResp := { success := false }
    quotaResp := { success := true, data := some respFree96 }
    eventsResp := { success := true, data := some {} } }

/-- **C4, witness**: the amended theorem at a concrete free account at 96% of
its premium quota: limit 50 and percentage 96. -/
theorem combined_requestBased_record_witness :
    (fetchCombinedUsageData stCachedFree envFree96 BillingModel.free).result =
      { success := true
        data := some
          { billingType := "request-based"
            requestBased := some { used := 48, limit := 50, percentage := 96 } } } :=
  combined_requestBased_record stCachedFree envFree96 BillingModel.free respFree96
    { numRequests := 48 } BillingModel.free (by decide) (by decide) rfl rfl rfl
    (by decide) rfl rfl (by decide)

/-! ## Claim C8: zero events on a usage-based account -/

/-- **C8**: for an (effective) usage-based account, when the events endpoint
succeeds with zero events — its payload either lacks the
`usageEventsDisplay` key entirely or carries an empty list —
`fetchCombinedUsageData` returns a successful zero-value usage-based record
(cost 0, tokens 0, no events) rather than an error, whatever the quota
endpoint returned. -/
theorem combined_usage_based_zero_events (st : SvcState) (env : ApiEnv) (cfg : BillingModel)
    (r : UsageEventsResponse)
    (h1 : jsTruthyStr st.sessionToken = true) (h2 : jsTruthyStr st.userId = true)
    (hm : (detectBillingModel st.detectedBillingModel env.profileResp).model =
      BillingModel.usageBased)
    (hes : env.eventsResp.success = true) (hed : env.eventsResp.data = some r)
    (hz : r.usageEventsDisplay = none ∨ r.usageEventsDisplay = some []) :
    (fetchCombinedUsageData st env cfg).result =
      { success := true
        data := some
          { billingType := "usage-based"
            usageBased := some { todayCost := 0, todayTokens := 0, recentEvents := [] } } } := by
  have hev : fetchUsageEvents true env.eventsResp = { success := true, data := some [] } := by
    rcases hz with h | h <;> simp [fetchUsageEvents, hes, hed, h, transformUsageEvents]
  unfold fetchCombinedUsageData
  rw [hm, hev]
  simp [h1, h2, zeroUsageBasedResult]

/-- An environment for a usage-based account: quota succeeds with an empty
response, the events endpoint returns an empty object. -/
def envUBZeroEvents : ApiEnv :=
  { profileResp := { success := false }
    quotaResp := { success := true, data := some {} }
    eventsResp := { success := true, data := some {} } }

/-- **C8, witness**: the theorem at a concrete usage-based account whose
events endpoint returns an empty object (no `usageEventsDisplay` key). -/
theorem combined_usage_based_zero_events_witness :
    (fetchCombinedUsageData stCachedUB envUBZeroEvents BillingModel.free).result =
      { success := true
        data := some
          { billingType := "usage-based"
            usageBased := some { todayCost := 0, todayTokens := 0, recentEvents := [] } } } :=
  combined_usage_based_zero_events stCachedUB envUBZeroEvents BillingModel.free {}
    (by decide) (by decide) rfl rfl rfl (Or.inl rfl)

/-! ## Claim C1: the exhaustion threshold and the events trigger -/

/-- **C1**: for every successful quota response, the combined fetch computes
`isPremiumExhausted` as true exactly when
`premiumRequestsUsed >= premiumRequestsLimit` (exact `>=` comparison), and
the per-event usage fetch step runs exactly when the effective billing model
is usage-based or `isPremiumExhausted` is true — so a request-based account
at 96% or 99% of quota does not trigger the events fallback. -/
theorem combined_exhaustion_events_trigger (st : SvcState) (env : ApiEnv)
    (cfg : BillingModel) (resp : CursorUsageResponse)
    (h1 : jsTruthyStr st.sessionToken = true) (h2 : jsTruthyStr st.userId = true)
    (hs : env.quotaResp.success = true) (hd : env.quotaResp.data = some resp) :
    ((transformUsageData resp
        (detectBillingModel st.detectedBillingModel env.profileResp).model).isPremiumExhausted =
      decide ((transformUsageData resp
          (detectBillingModel st.detectedBillingModel env.profileResp).model).premiumRequestsUsed ≥
        (transformUsageData resp
          (detectBillingModel st.detectedBillingModel env.profileResp).model).premiumRequestsLimit)) ∧
    ((fetchCombinedUsageData st env cfg).eventsFetched = true ↔
      ((detectBillingModel st.detectedBillingModel env.profileResp).model =
          BillingModel.usageBased ∨
        (transformUsageData resp
          (detectBillingModel st.detectedBillingModel env.profileResp).model).isPremiumExhausted =
          true)) := by
  constructor
  · simp [transformUsageData]
  · have hok := fetchUsageData_ok env.quotaResp env.teamSpend
      (detectBillingModel st.detectedBillingModel env.profileResp).model resp hs hd
    have hD := (decoratedUsage_fields
      (transformUsageData resp
        (detectBillingModel st.detectedBillingModel env.profileResp).model) env.teamSpend).1
    simp only [fetchCombinedUsageData, hok]
    simp only [h1, h2, and_self, not_true_eq_false, if_false, Option.map_some',
      Option.getD_some, hD]
    by_cases hc : ((detectBillingModel st.detectedBillingModel env.profileResp).model =
        BillingModel.usageBased ∨
      (transformUsageData resp
        (detectBillingModel st.detectedBillingModel env.profileResp).model).isPremiumExhausted =
        true)
    · simp only [eq_self_iff_true, true_and]
      rw [if_pos hc]
      constructor
      · intro _; exact hc
      · intro _
        split
        · rfl
        · split <;> rfl
    · simp only [eq_self_iff_true, true_and]
      rw [if_neg hc]
      simp [hc]

/-- **C1, witness**: at a concrete request-based (free) account at 96% of its
premium quota (48 of 50), the per-event usage fetch step is not triggered. -/
theorem combined_exhaustion_events_trigger_witness :
    (fetchCombinedUsageData stCachedFree envFree96 BillingModel.free).eventsFetched = false := by
  have h := combined_exhaustion_events_trigger stCachedFree envFree96 BillingModel.free
    respFree96 (by decide) (by decide) rfl rfl
  cases hfe : (fetchCombinedUsageData stCachedFree envFree96 BillingModel.free).eventsFetched
  · rfl
  · exfalso
    have hR := h.2.mp hfe
    revert hR
    decide

/-! ## Claim C6: extraction from a separator-free credential -/

/-- The code's `payload.sub` handling agrees with the spec's "regex applied
to the `sub` field" on every parsed payload: a missing, falsy, or non-string
`sub` and a non-object payload all end in `none` (in the code via the
truthiness guard or a caught `TypeError`). -/
theorem extractFromPayload_eq_specSubId (j : Json) :
    extractFromPayload j = specSubId j := by
  unfold extractFromPayload specSubId
  cases hj : jsonGetField j "sub" with
  | none => rfl
  | some v =>
    cases v with
    | null => rfl
    | bool b => rfl
    | num q => rfl
    | str s =>
      by_cases hs : s = ""
      · subst hs; rfl
      · simp [hs]
    | arr elems => rfl
    | obj fields => rfl

/-- **C6**: for every credential whose (percent-decoded) form has no `::`
separator, `extractUserId` behaves exactly as the spec's three-segment
pipeline `specExtractNoSep` — base64url-decode the middle dot-separated
segment (`-`→`+`, `_`→`/`, `=`-padding to a multiple of 4), JSON-parse it,
and return the `user_[A-Za-z0-9]+` match of the payload's `sub` — with every
failure at any step yielding `none` rather than a crash. -/
theorem extractUserId_no_sep_eq_spec (token : String)
    (h : jsIncludes ((percentDecode token).getD token) "::" = false) :
    extractUserId token = specExtractNoSep token := by
  unfold extractUserId specExtractNoSep
  simp only [h, Bool.false_eq_true, if_false]
  by_cases hlen : (jsSplit ((percentDecode token).getD token) ".").length = 3
  · rw [if_pos hlen, if_pos hlen]
    cases hp : jsonParse (bufferBase64ToString (String.mk (padB64
        ((((jsSplit ((percentDecode token).getD token) ".").get? 1).getD "").toList.map
          b64urlChar)))) with
    | none => rfl
    | some payload => exact extractFromPayload_eq_specSubId payload
  · rw [if_neg hlen, if_neg hlen]

/-- A well-formed three-segment signed token whose (base64url) payload is the
JSON object with `sub` equal to `auth0|user_AB12`. -/
def jwtToken : String := "hdr.eyJzdWIiOiJhdXRoMHx1c2VyX0FCMTIifQ.sig"

/-- **C6, witness**: the refinement theorem applied at a concrete signed
token, together with the concrete results: the `auth0|user_AB12` payload
yields `user_AB12`, and a payload whose `sub` does not match the pattern
yields `none`. -/
theorem extractUserId_no_sep_eq_spec_witness :
    extractUserId jwtToken = specExtractNoSep jwtToken ∧
    extractUserId jwtToken = some "user_AB12" ∧
    extractUserId "hdr.eyJzdWIiOiJub2JvZHkgaGVyZSJ9.sig" = none :=
  ⟨extractUserId_no_sep_eq_spec jwtToken (by decide), by decide, by decide⟩
